import Mathlib

/-!
# Verification of the provisioning orchestrator in `ai-foundry`

Shallow embedding of the checkpointed installer scripts of the
`openclaw-droplet` rig:

* the local bash installer (`install.sh`, shipped as an unnamed source
  part): five step blocks, each guarded by `[[ "$CURRENT_STEP" -lt i ]]`,
  each ending in `save_checkpoint i` and `CURRENT_STEP=i`;
* the remote setup script `droplet-setup.sh`: ten step blocks guarded by
  the checkpoint value loaded once at startup (the in-memory
  `CURRENT_STEP` is never reassigned inside a block);
* the Windows installer `install.ps1`: six step blocks where steps 4 and 5
  share the single guard `$CurrentStep -lt 5`, and `Save-Checkpoint -Step 5`
  runs unconditionally after the remote ssh execution.

Definitions are translated from the shell / PowerShell sources; theorems
settle the frozen claims about the step/checkpoint model.
-/

/-! ## Generic guarded step sequencing

The local bash installer threads the checkpoint value: after a block for
step `i` runs, it executes `save_checkpoint i` and `CURRENT_STEP=i`, so the
next guard compares against the updated value.  `runThreaded cp steps`
returns the list of step indices whose bodies execute together with the
final persisted checkpoint value, assuming every executed body succeeds.
-/

def runThreaded : Nat → List Nat → List Nat × Nat
  | cp, [] => ([], cp)
  | cp, i :: rest =>
    if cp < i then
      let r := runThreaded i rest
      (i :: r.1, r.2)
    else
      runThreaded cp rest

/-- The remote script `droplet-setup.sh` loads `CURRENT_STEP` once and never
reassigns it: every block `i` tests `[[ "$CURRENT_STEP" -lt i ]]` against the
value loaded at startup and ends in `save_checkpoint i`.  `runFixed cp steps`
returns the executed step indices and the final checkpoint file value (the
last `save_checkpoint` argument, or the entry value if no block ran). -/
def runFixed (cp : Nat) (steps : List Nat) : List Nat × Nat :=
  let execd := steps.filter (fun i => decide (cp < i))
  (execd, (execd.getLast?).getD cp)

/-- Step indices of the local bash installer (`install.sh`, steps 1-5). -/
def localSteps : List Nat := [1, 2, 3, 4, 5]

/-- Step indices of the remote setup script (`droplet-setup.sh`, steps 1-10). -/
def dropletSteps : List Nat := [1, 2, 3, 4, 5, 6, 7, 8, 9, 10]

/-- A full run of the local installer from checkpoint 0 that is interrupted
right after block `k`'s `save_checkpoint` completes: only the first `k`
blocks have run.  Returns the persisted checkpoint value at the
interruption point. -/
def localInterruptedCheckpoint (k : Nat) : Nat :=
  (runThreaded 0 (localSteps.take k)).2

/-! ## Fallible sequencing (fatal failures)

In the local bash installer every fatal path (`fail ...; exit 1`) occurs
inside the step block *before* that block's `save_checkpoint`, so an abort
leaves the checkpoint at the value it had when the failing block was
entered.  `runFallible ok cp steps` models this: `ok i = false` means step
`i`'s body fails fatally (the script exits 1).  It returns the executed
step indices, the final persisted checkpoint and `some i` when the run
aborted at step `i` (`none` means the run reached the end). -/
def runFallible (ok : Nat → Bool) : Nat → List Nat → List Nat × Nat × Option Nat
  | cp, [] => ([], cp, none)
  | cp, i :: rest =>
    if cp < i then
      if ok i then
        let r := runFallible ok i rest
        (i :: r.1, r.2)
      else
        ([i], cp, some i)
    else
      runFallible ok cp rest

/-- Per-step success predicate of the local bash installer: step 1 needs
`ssh` and `curl` on the PATH, step 2 a non-empty droplet IP, step 3 a
successful ssh probe, step 4 a successful download, and step 5 is fatal
exactly when the interactive `ssh -t ... bash /tmp/openclaw-setup.sh`
process exits non-zero (`if ! ssh -t ...; then ... exit 1; fi`). -/
def localStepOk (sshAvail curlAvail : Bool) (dropletIp : String)
    (sshConnOk downloadOk : Bool) (remoteSshExit : Nat) : Nat → Bool
  | 1 => sshAvail && curlAvail
  | 2 => dropletIp != ""
  | 3 => sshConnOk
  | 4 => downloadOk
  | 5 => remoteSshExit == 0
  | _ => true

/-! ## `install.ps1` steps 4/5 block

In `install.ps1` the download (step 4) and the remote execution (step 5)
live in one block guarded by `$CurrentStep -lt 5`.  After the ssh process
returns, the script *always* executes
`Save-Checkpoint -Step 5 ...` (comment in the source: "Always save
checkpoint with droplet info so we don't lose state") and merely prints a
warning on a non-zero exit code; it does not exit, and continues into the
step 6 verification block. -/

structure Ps1Step45Result where
  checkpointAfter : Nat
  aborted : Bool
  warned : Bool
  deriving Repr, DecidableEq

/-- Model of the `install.ps1` block guarded by `$CurrentStep -lt 5`:
run the remote script, save checkpoint 5 unconditionally, warn (without
aborting) when the ssh exit code is non-zero. -/
def ps1Steps45 (cp : Nat) (sshExit : Nat) : Ps1Step45Result :=
  if cp < 5 then
    { checkpointAfter := 5, aborted := false, warned := sshExit != 0 }
  else
    { checkpointAfter := cp, aborted := false, warned := false }

/-- Guard of the remote-execution block on a following invocation of
`install.ps1`: step 5 re-runs exactly when the loaded checkpoint value is
below 5. -/
def ps1RetriesStep5 (cp : Nat) : Bool := cp < 5

/-! ## Substring matching (bash `[[ $x == *pat* ]]` / PowerShell `-match`) -/

def hasPrefixCL : List Char → List Char → Bool
  | [], _ => true
  | _ :: _, [] => false
  | p :: ps, c :: cs => p == c && hasPrefixCL ps cs

def containsCL (pat : List Char) : List Char → Bool
  | [] => hasPrefixCL pat []
  | c :: cs => hasPrefixCL pat (c :: cs) || containsCL pat cs

/-- `bashGlobContains s pat` models `[[ "$s" == *"pat"* ]]`. -/
def bashGlobContains (s pat : String) : Bool :=
  containsCL pat.data s.data

/-- `bashGlobPrefix s pat` models `[[ "$s" == pat* ]]`. -/
def bashGlobPrefix (s pat : String) : Bool :=
  hasPrefixCL pat.data s.data

/-- `[[ $REPLY =~ ^[Yy]$ ]]`. -/
def matchesYes (r : String) : Bool := r == "y" || r == "Y"

/-- `[[ $REPLY =~ ^[Nn]$ ]]`. -/
def matchesNo (r : String) : Bool := r == "n" || r == "N"

/-! ## Checkpoint serialization and secret material

Process state of each installer, including the values gathered by secret
prompts.  The local bash installer keeps `DROPLET_IP`, `SSH_USER` and a
timestamp; `install.ps1` additionally keeps the droplet id/name and reads
the DigitalOcean API token interactively for `doctl auth init`; the remote
script gathers the Tailscale auth key, the Telegram bot token and the
pasted Gmail OAuth credentials JSON.  The checkpoint files are modeled as
lists of atomically written lines. -/

structure LocalSessionState where
  step : String
  dropletIp : String
  sshUser : String
  timestamp : String
  doApiToken : String
  sshPassword : String
  deriving Repr, DecidableEq

/-- The four lines of the full record written by `save_checkpoint` in the
local bash installer (`echo "STEP=$step" > file` followed by three
appends). -/
def localFullRecord (step ip user ts : String) : List String :=
  ["STEP=" ++ step,
   "DROPLET_IP=" ++ ip,
   "SSH_USER=" ++ user,
   "TIMESTAMP=" ++ ts]

/-- What the local bash installer's `save_checkpoint` persists, as a
function of the whole process state. -/
def localSaveContent (s : LocalSessionState) : List String :=
  localFullRecord s.step s.dropletIp s.sshUser s.timestamp

/-- File contents after each atomic write of the local `save_checkpoint`:
the truncating `echo >` of the STEP line, then the three `echo >>`
appends.  Index 0 is the file before the save starts. -/
def localSaveStates (prev : List String) (step ip user ts : String) :
    List (List String) :=
  [prev,
   ["STEP=" ++ step],
   ["STEP=" ++ step, "DROPLET_IP=" ++ ip],
   ["STEP=" ++ step, "DROPLET_IP=" ++ ip, "SSH_USER=" ++ user],
   localFullRecord step ip user ts]

/-- A complete local checkpoint record: exactly the four fields, in order. -/
def isCompleteLocalRecord (c : List String) : Bool :=
  match c with
  | [l1, l2, l3, l4] =>
    bashGlobPrefix l1 "STEP=" && bashGlobPrefix l2 "DROPLET_IP=" &&
      bashGlobPrefix l3 "SSH_USER=" && bashGlobPrefix l4 "TIMESTAMP="
  | _ => false

/-- Process state of the remote `droplet-setup.sh` run, secrets included. -/
structure DropletSessionState where
  currentStep : Nat
  tsAuthKey : String
  telegramBotToken : String
  gmailOAuthJson : String
  gmailAddr : String
  deriving Repr, DecidableEq

/-- `save_checkpoint` of `droplet-setup.sh` writes the bare step number
(`echo "$1" > "$CHECKPOINT_FILE"`). -/
def dropletSaveContent (s : DropletSessionState) : List String :=
  [toString s.currentStep]

/-- Process state of the `install.ps1` run, secrets included. -/
structure Ps1SessionState where
  step : Nat
  dropletIP : String
  sshUser : String
  dropletId : String
  dropletName : String
  timestamp : String
  doApiToken : String
  deriving Repr, DecidableEq

/-- The key-value pairs `Save-Checkpoint` serializes with `ConvertTo-Json`
(field order as in the hashtable literal of the source). -/
def ps1SaveContent (s : Ps1SessionState) : List (String × String) :=
  [("Step", toString s.step),
   ("DropletIP", s.dropletIP),
   ("SSHUser", s.sshUser),
   ("DropletId", s.dropletId),
   ("DropletName", s.dropletName),
   ("Timestamp", s.timestamp)]

/-! ## Checkpoint loading

The local bash installer loads the checkpoint by *sourcing* the file
(`source "$CHECKPOINT_FILE"` then `echo "${STEP:-0}"`).  We model the
fragment of shell that sourcing can encounter: a line is accepted when it
is empty or a plain `NAME=VALUE` assignment whose value uses only
word-safe characters; any other line makes `source` return non-zero
(unknown command or shell syntax error), which under `set -euo pipefail`
aborts the run via the `CURRENT_STEP=$(load_checkpoint)` assignment. -/

def isIdentStartChar (c : Char) : Bool := c.isAlpha || c == '_'

def isIdentChar (c : Char) : Bool := c.isAlphanum || c == '_'

/-- Characters that bash treats as an ordinary word in an unquoted
assignment value (covers everything the installers themselves write:
digits, IPv4 addresses, user names, ISO timestamps). -/
def isSafeValueChar (c : Char) : Bool :=
  c.isAlphanum || c == '.' || c == ':' || c == '-' || c == '+' ||
    c == '@' || c == '_' || c == '/'

/-- Parse one sourced line as a plain variable assignment: the name is
everything before the first `=`.  Lines with no `=` at all, names that are
not identifiers, or values outside the safe-word alphabet are the ones
bash rejects (unknown command or shell syntax error). -/
def parseAssign (l : String) : Option (String × String) :=
  match l.data.dropWhile (fun c => c != '=') with
  | '=' :: value =>
    let name := l.data.takeWhile (fun c => c != '=')
    if !name.isEmpty && isIdentStartChar (name.headD 'a') &&
        name.all isIdentChar && value.all isSafeValueChar then
      some (name.asString, value.asString)
    else
      none
  | _ => none

/-- Evaluate the sourced lines to an environment, or fail the way bash
does on content that is not a plain assignment. -/
def sourceLines : List String → Option (List (String × String))
  | [] => some []
  | l :: rest =>
    if l == "" then
      sourceLines rest
    else
      match parseAssign l with
      | none => none
      | some kv => (sourceLines rest).map (kv :: ·)

/-- `load_checkpoint` of the local bash installer: absent file yields "0";
otherwise the file is sourced and `${STEP:-0}` is printed.  A sourcing
failure is fatal (`Except.error`), because the caller assigns the command
substitution under `set -e`. -/
def loadLocalCheckpoint (file : Option (List String)) : Except Unit String :=
  match file with
  | none => .ok "0"
  | some ls =>
    match sourceLines ls with
    | none => .error ()
    | some env =>
      let v := (((env.filter (fun p => p.1 == "STEP")).getLast?).map (·.2)).getD ""
      .ok (if v == "" then "0" else v)

/-- `load_checkpoint` of `droplet-setup.sh`: `cat` the file (captured via
command substitution, which strips trailing newlines), or "0" when
absent. -/
def loadDropletCheckpoint (file : Option (List String)) : String :=
  match file with
  | none => "0"
  | some ls => String.intercalate "\n" ls

/-- Decimal value of a digit string. -/
def digitsToNat (cs : List Char) : Nat :=
  cs.foldl (fun n c => n * 10 + (c.toNat - '0'.toNat)) 0

/-- Bash arithmetic evaluation of a word as used by `[[ "$x" -lt n ]]`:
a digit string is its value, an empty string or an unset-variable name
evaluates to 0, anything else is an expression error (`none`), which makes
the conditional fail and the guarded block get skipped. -/
def bashArith (s : String) : Option Nat :=
  if s == "" then some 0
  else if s.data.all Char.isDigit then some (digitsToNat s.data)
  else if isIdentStartChar (s.data.headD '0') && s.data.all isIdentChar then
    some 0
  else none

/-- The executed steps of `droplet-setup.sh` as a function of the raw
string loaded from the checkpoint file: each block `i` tests
`[[ "$CURRENT_STEP" -lt i ]]`. -/
def runFixedRaw (cur : String) (steps : List Nat) : List Nat :=
  steps.filter (fun i => (((bashArith cur).map (fun v => decide (v < i)))).getD false)

/-- Checkpoint record of `install.ps1` as read back by `Load-Checkpoint`. -/
structure Ps1Checkpoint where
  step : Nat
  dropletIP : String
  sshUser : String
  dropletId : String
  dropletName : String
  deriving Repr, DecidableEq

/-- `Load-Checkpoint` of `install.ps1`, parameterized by the JSON parser:
absent file yields `$null`, and the `try/catch` around `ConvertFrom-Json`
turns every parse failure into `$null` as well. -/
def ps1LoadCheckpoint (parse : String → Option Ps1Checkpoint)
    (file : Option String) : Option Ps1Checkpoint :=
  file.bind parse

/-- `$CurrentStep = if ($Checkpoint) { $Checkpoint.Step } else { 0 }`. -/
def ps1CurrentStep (c : Option Ps1Checkpoint) : Nat :=
  match c with
  | none => 0
  | some cp => cp.step

/-! ## `droplet-setup.sh` step bodies

Inputs are the facts each step's idempotency check probes on the host
(`command -v`, `swapon --show`, `node --version`, `openclaw status`, ...)
and the operator's replies.  Outputs are the external side-effecting tool
invocations the body performs, as a list of call names. -/

/-- Step 3 body: `swapon --show | wc -l` counts existing swap lines; swap
is added only when none exists, memory is below 2048 MB and the operator
does not answer `n`/`N` (the prompt defaults to yes). -/
def step3SwapCalls (swapLines : Nat) (totalMemMB : Nat) (reply : String) :
    List String :=
  if swapLines == 0 then
    if totalMemMB < 2048 then
      if matchesNo reply then [] else ["fallocate-swapfile", "mkswap", "swapon"]
    else []
  else []

/-- Step 4 body: when `node` is on the PATH and `node --version` starts
with `v22`, nothing is installed; otherwise the NodeSource setup script
and `apt-get install -y nodejs` run. -/
def step4NodeCalls (nodeInstalled : Bool) (nodeVersion : String) : List String :=
  if nodeInstalled then
    if bashGlobPrefix nodeVersion "v22" then []
    else ["nodesource-setup-22", "apt-get-install-nodejs"]
  else ["nodesource-setup-22", "apt-get-install-nodejs"]

/-- Step 5, install half: `command -v tailscale` short-circuits the
`curl | sh` installer. -/
def step5InstallCalls (tsInstalled : Bool) : List String :=
  if tsInstalled then [] else ["tailscale-install"]

/-- Step 5, connect half: when `tailscale status` does not report a
connected node, the operator is prompted for an auth key; an empty reply
skips the `tailscale up` call. -/
def step5ConnectCalls (tsConnected : Bool) (authKeyReply : String) : List String :=
  if tsConnected then []
  else if authKeyReply != "" then ["tailscale-up"]
  else []

structure Step5Outcome where
  calls : List String
  checkpointAfter : Nat
  sessionAborted : Bool
  skipRecorded : Bool
  deriving Repr, DecidableEq

/-- The whole step 5 block of `droplet-setup.sh`.  There is no `exit` path
in the block, `save_checkpoint 5` runs unconditionally at its end, and the
checkpoint file carries only the bare step number, so no skipped-state
marker is ever persisted (`skipRecorded` is false on every path). -/
def step5Run (cp : Nat) (tsInstalled tsConnected : Bool)
    (authKeyReply : String) : Step5Outcome :=
  if cp < 5 then
    { calls := step5InstallCalls tsInstalled ++
        step5ConnectCalls tsConnected authKeyReply,
      checkpointAfter := 5, sessionAborted := false, skipRecorded := false }
  else
    { calls := [], checkpointAfter := cp, sessionAborted := false,
      skipRecorded := false }

/-- Step 7 body: with `openclaw` already on the PATH the installer is
skipped, but the script then asks `Reinstall/upgrade? (y/N)` and re-runs
`curl -fsSL https://openclaw.ai/install.sh | bash` on an explicit yes. -/
def step7OpenclawCalls (ocInstalled : Bool) (reinstallReply : String) :
    List String :=
  if ocInstalled then
    if matchesYes reinstallReply then ["openclaw-install"] else []
  else ["openclaw-install"]

/-- Step 8 body: `openclaw status` reporting a running or installed
gateway short-circuits the onboarding wizard. -/
def step8OnboardCalls (onboardingDone : Bool) : List String :=
  if onboardingDone then [] else ["openclaw-onboard"]

/-! ## Step 9: smoke-test classification

`TEST_RESULT=$(timeout 30 openclaw agent -m ... 2>&1) || true` discards
the exit status; the subsequent classification looks only at the captured
text: non-empty and containing neither `error` nor `Error` counts as
success. -/

def step9Classify (testResult : String) : Bool :=
  testResult != "" && !(bashGlobContains testResult "error") &&
    !(bashGlobContains testResult "Error")

structure Step9Outcome where
  reportedSuccess : Bool
  checkpointAfter : Nat
  deriving Repr, DecidableEq

/-- The step 9 block: the agent invocation's exit code (`agentExit`) is
swallowed by `|| true` and never consulted; `save_checkpoint 9` runs
unconditionally at the end of the block. -/
def step9Run (cp : Nat) (_agentExit : Nat) (agentOutput : String) : Step9Outcome :=
  if cp < 9 then
    { reportedSuccess := step9Classify agentOutput, checkpointAfter := 9 }
  else
    { reportedSuccess := false, checkpointAfter := cp }

/-- The `install.ps1` step 4 download check fails when the ssh exit code
is non-zero *or* the output does not contain the `DOWNLOAD_OK` marker
(`if ($downloadExitCode -ne 0 -or $downloadResult -notmatch "DOWNLOAD_OK")`). -/
def ps1DownloadCheckFails (exitCode : Int) (output : String) : Bool :=
  exitCode != 0 || !(bashGlobContains output "DOWNLOAD_OK")

/-! ## Step 10: channel setup and the final summary -/

/-- The Gmail sub-flow of step 10: its calls when Tailscale ends up
connected.  The actual gcloud/gog sub-steps have their own inner checks;
for the claims it suffices that none of them runs unless the
`tailscale status` re-probe succeeds. -/
def gmailFlowCalls : List String :=
  ["gcloud-auth", "gcloud-project-setup", "gog-auth", "openclaw-gmail-webhook-setup"]

/-- The Gmail branch of step 10: if `tailscale status` already reports a
connection the flow runs; otherwise the operator is asked for an auth key,
`skip` skips the whole Gmail flow, and any other reply attempts
`tailscale up` after which the flow runs only when the re-probe succeeds. -/
def step10GmailRun (tsConnected : Bool) (tsKeyReply : String)
    (tsAuthOk : Bool) : List String :=
  if tsConnected then gmailFlowCalls
  else if tsKeyReply == "skip" then []
  else ["tailscale-up"] ++ (if tsAuthOk then gmailFlowCalls else [])

structure DropletRunInputs where
  channelChoice : String
  waReady : String
  waLoginOk : Bool
  tgToken : String
  tgAddOk : Bool
  tsConnected : Bool
  tsKeyReply : String
  tsAuthOk : Bool
  gmailSetupOk : Bool
  deriving Repr, DecidableEq

/-- The `GMAIL_OK` / `WHATSAPP_OK` / `TELEGRAM_OK` flags at the end of a
run whose step 10 body executed.  Each flag starts unset in every process
(shell variables do not survive the process), and is set only by its
channel branch; branch `i` runs when the choice string contains the digit
`i` (`[[ "$channel_choices" == *"1"* ]]` etc.). -/
def step10Flags (inp : DropletRunInputs) : Bool × Bool × Bool :=
  let connected := inp.tsConnected ||
    (inp.tsKeyReply != "skip" && inp.tsAuthOk)
  (bashGlobContains inp.channelChoice "3" && connected && inp.gmailSetupOk,
   bashGlobContains inp.channelChoice "1" && matchesYes inp.waReady && inp.waLoginOk,
   bashGlobContains inp.channelChoice "2" && inp.tgToken != "" && inp.tgAddOk)

/-- `CONFIGURED_LIST` of the final summary, built in the source order
Gmail, WhatsApp, Telegram. -/
def dropletConfiguredList (flags : Bool × Bool × Bool) : List String :=
  (if flags.1 then ["Gmail"] else []) ++
    (if flags.2.1 then ["WhatsApp"] else []) ++
    (if flags.2.2 then ["Telegram"] else [])

structure DropletRunResult where
  executed : List Nat
  finalCheckpoint : Nat
  configured : List String
  noChannelsBanner : Bool
  deriving Repr, DecidableEq

/-- One full run of `droplet-setup.sh` from a loaded checkpoint value:
the guarded blocks execute per `runFixed`, the channel flags are set only
if the step 10 body ran, and the epilogue prints the yellow
"Setup finished (no channels configured)" banner exactly when
`CONFIGURED_LIST` is empty.  The script deliberately has no
`clear_checkpoint` at the end (source comment: "Keep checkpoint so re-runs
skip completed steps"), so the file keeps the last saved value. -/
def dropletSetupFullRun (cp : Nat) (inp : DropletRunInputs) : DropletRunResult :=
  let r := runFixed cp dropletSteps
  let flags := if cp < 10 then step10Flags inp else (false, false, false)
  let conf := dropletConfiguredList flags
  { executed := r.1, finalCheckpoint := r.2, configured := conf,
    noChannelsBanner := conf.isEmpty }

/-- Entry of `droplet-setup.sh`: `--reset` runs `clear_checkpoint`
(removing the file) before `load_checkpoint`. -/
def dropletEntryStep (reset : Bool) (file : Option (List String)) : String :=
  if reset then loadDropletCheckpoint none else loadDropletCheckpoint file

/-! ## `install.ps1` step 2: droplet creation and reuse

The creation path of the step 2 block runs, in order:
`doctl compute droplet create ... --wait`, then immediately
`Save-Checkpoint -Step 1` with the parsed IP/id/name (source comment:
"Save checkpoint immediately so we don't lose the droplet info"), then the
SSH readiness polling loop.  Only after the whole block does
`Save-Checkpoint -Step 2` run.  We model the block as a trace of atomic
actions over the local state; an interruption is a prefix of that trace. -/

inductive Ps1CreateAction where
  | createDroplet
  | saveDropletInfo
  | waitSSH
  | saveStep2
  deriving Repr, DecidableEq

/-- Action order of the creation path of the step 2 block. -/
def ps1CreateTrace : List Ps1CreateAction :=
  [.createDroplet, .saveDropletInfo, .waitSSH, .saveStep2]

structure Ps1LocalState where
  checkpoint : Option Ps1Checkpoint
  dropletsCreated : Nat
  deriving Repr, DecidableEq

/-- Effect of one atomic action of the creation path, for a droplet that
comes back from `doctl` with address `ip`, id `did` and name `dname`. -/
def ps1ApplyAction (ip did dname : String) (st : Ps1LocalState) :
    Ps1CreateAction → Ps1LocalState
  | .createDroplet => { st with dropletsCreated := st.dropletsCreated + 1 }
  | .saveDropletInfo =>
    { st with checkpoint := some ⟨1, ip, "root", did, dname⟩ }
  | .waitSSH => st
  | .saveStep2 =>
    { st with checkpoint := some ⟨2, ip, "root", did, dname⟩ }

/-- The state after the first `k` actions of the creation path, starting
from the state left by step 1 (`Save-Checkpoint -Step 1` with no droplet
fields). -/
def ps1CreateRunPrefix (ip did dname : String) (k : Nat) : Ps1LocalState :=
  (ps1CreateTrace.take k).foldl (ps1ApplyAction ip did dname)
    { checkpoint := some ⟨1, "", "root", "", ""⟩, dropletsCreated := 0 }

/-- Entry test of the step 2 block on a later invocation:
`if ($DropletIP -and $DropletId)` — the reuse prompt is shown exactly when
both fields loaded from the checkpoint are non-empty. -/
def ps1OffersReuse (c : Option Ps1Checkpoint) : Bool :=
  match c with
  | none => false
  | some cp => cp.dropletIP != "" && cp.dropletId != ""

/-- Number of `doctl compute droplet create` invocations performed by the
step 2 block when the reuse prompt was shown and answered: `y`/`Y` keeps
the existing droplet (`$skipDropletCreation = $true`), anything else
clears the droplet fields and re-enters the creation/selection flow, where
choosing to create runs `doctl compute droplet create` once. -/
def ps1Step2CreationsAfterReusePrompt (reply : String) (choosesCreate : Bool) : Nat :=
  if matchesYes reply then 0
  else if choosesCreate then 1 else 0

/-! ## Theorems -/

/-- C1: Resume idempotence: a session interrupted after step `i`'s
checkpoint save completes and before step `i+1` starts has persisted
checkpoint value `i`; re-invoking the installer executes exactly the steps
with index greater than `i` and does not re-execute step `i`'s body,
because every block is guarded by a `current step < i` test and the
checkpoint is saved with the new index before the next guard is evaluated.
Holds for both the local bash installer (5 steps, threaded checkpoint
variable) and the remote setup script (10 steps, fixed loaded value). -/
theorem resume_executes_exactly_later_steps :
    (∀ i, i ≤ 5 →
      localInterruptedCheckpoint i = i ∧
      (runThreaded i localSteps).1 = List.range' (i + 1) (5 - i) ∧
      i ∉ (runThreaded i localSteps).1) ∧
    (∀ i, i ≤ 10 →
      (runFixed i dropletSteps).1 = List.range' (i + 1) (10 - i) ∧
      i ∉ (runFixed i dropletSteps).1) := by
  constructor <;> decide

theorem resume_executes_exactly_later_steps_witness :
    3 ≤ 5 ∧
      (localInterruptedCheckpoint 3 = 3 ∧
        (runThreaded 3 localSteps).1 = List.range' 4 2 ∧
        3 ∉ (runThreaded 3 localSteps).1) :=
  ⟨by decide, resume_executes_exactly_later_steps.1 3 (by decide)⟩

/-- C5: No secret persistence: each checkpoint serialization is a function
of the step index, the target identifiers, the user name and the
timestamp only — changing any value gathered by a secret prompt (the
DigitalOcean API token, an ssh password, the Tailscale auth key, the
Telegram bot token, the pasted Gmail OAuth JSON) leaves the serialized
checkpoint contents unchanged, because the schema has no field for them. -/
theorem checkpoint_never_contains_secrets :
    (∀ (s : LocalSessionState) (tok pw : String),
      localSaveContent { s with doApiToken := tok, sshPassword := pw } =
        localSaveContent s) ∧
    (∀ (s : DropletSessionState) (k t j : String),
      dropletSaveContent
          { s with tsAuthKey := k, telegramBotToken := t, gmailOAuthJson := j } =
        dropletSaveContent s) ∧
    (∀ (s : Ps1SessionState) (tok : String),
      ps1SaveContent { s with doApiToken := tok } = ps1SaveContent s) :=
  ⟨fun _ _ _ => rfl, fun _ _ _ _ => rfl, fun _ _ => rfl⟩

/-- C10: After the remote script's final step saves nested checkpoint 10
the file is deliberately not cleared, so a re-invocation without
`--reset` evaluates every guard as satisfied, executes no step bodies,
leaves the checkpoint at 10, and reaches the epilogue with no channel
flag set, printing the "no channels configured" summary; an explicit
`--reset` is the only entry path that discards the progress. -/
theorem completed_remote_rerun_is_noop :
    (∀ inp : DropletRunInputs,
      (dropletSetupFullRun 10 inp).executed = [] ∧
      (dropletSetupFullRun 10 inp).finalCheckpoint = 10 ∧
      (dropletSetupFullRun 10 inp).configured = [] ∧
      (dropletSetupFullRun 10 inp).noChannelsBanner = true) ∧
    loadDropletCheckpoint (some ["10"]) = "10" ∧
    runFixedRaw "10" dropletSteps = [] ∧
    (∀ file, dropletEntryStep true file = "0") ∧
    dropletEntryStep false (some ["10"]) = "10" :=
  ⟨fun _ => ⟨rfl, rfl, rfl, rfl⟩, rfl, by decide, fun _ => rfl, rfl⟩

/-- Helper: whenever a fallible run aborts at step `i`, the persisted
checkpoint is strictly below `i`, because every `exit 1` path precedes the
block's `save_checkpoint`. -/
theorem runFallible_abort_keeps_checkpoint_low (ok : Nat → Bool) :
    ∀ (steps : List Nat) (cp i : Nat),
      (runFallible ok cp steps).2.2 = some i →
      (runFallible ok cp steps).2.1 < i := by
  intro steps
  induction steps with
  | nil =>
    intro cp i h
    simp [runFallible] at h
  | cons s rest ih =>
    intro cp i h
    by_cases hcp : cp < s
    · by_cases hok : ok s = true
      · simp only [runFallible, if_pos hcp, if_pos hok] at h ⊢
        exact ih s i h
      · simp only [runFallible, if_pos hcp, if_neg hok] at h ⊢
        cases h
        exact hcp
    · simp only [runFallible, if_neg hcp] at h ⊢
      exact ih cp i h

/-- C2 counterexample: in `install.ps1`, when the remote-delegated setup
step's ssh process exits non-zero (exit code 1) on a run resumed at
checkpoint 4, the block still saves checkpoint 5 and does not abort, so
the next invocation does not retry step 5: the persisted checkpoint no
longer points at the failed step. -/
theorem ps1_remote_failure_still_advances :
    ps1Steps45 4 1 =
      { checkpointAfter := 5, aborted := false, warned := true } ∧
    ps1RetriesStep5 (ps1Steps45 4 1).checkpointAfter = false ∧
    (1 : Nat) ≠ 0 := by
  decide

/-- C2 (amended): in the local bash installer every fatal step failure
aborts the session with exit 1 before the failed step's checkpoint save,
so the persisted checkpoint stays below the failed step and the next
invocation retries it — in particular a non-zero exit of the remote ssh
execution leaves the checkpoint at 4.  The PowerShell installer deviates
by design: it saves checkpoint 5 after the ssh execution regardless of
the exit code and continues with a warning instead of aborting. -/
theorem fatal_failure_keeps_checkpoint_at_failed_step :
    (∀ (ok : Nat → Bool) (steps : List Nat) (cp i : Nat),
      (runFallible ok cp steps).2.2 = some i →
      (runFallible ok cp steps).2.1 < i) ∧
    (∀ sshExit : Nat, sshExit ≠ 0 →
      runFallible (localStepOk true true "203.0.113.7" true true sshExit) 4
          localSteps = ([5], 4, some 5)) ∧
    (∀ sshExit : Nat,
      (ps1Steps45 4 sshExit).checkpointAfter = 5 ∧
        (ps1Steps45 4 sshExit).aborted = false) := by
  refine ⟨fun ok steps cp i => runFallible_abort_keeps_checkpoint_low ok steps cp i,
    fun sshExit h => ?_, fun sshExit => ⟨rfl, rfl⟩⟩
  have hb : (sshExit == 0) = false := by simpa using h
  simp [localSteps, runFallible, localStepOk, hb]

theorem fatal_failure_keeps_checkpoint_at_failed_step_witness :
    ((runFallible (fun _ => false) 0 [1]).2.2 = some 1 ∧
      (runFallible (fun _ => false) 0 [1]).2.1 < 1) ∧
    ((1 : Nat) ≠ 0 ∧
      runFallible (localStepOk true true "203.0.113.7" true true 1) 4
          localSteps = ([5], 4, some 5)) :=
  ⟨⟨by decide,
    fatal_failure_keeps_checkpoint_at_failed_step.1 (fun _ => false) [1] 0 1
      (by decide)⟩,
   ⟨by decide,
    fatal_failure_keeps_checkpoint_at_failed_step.2.1 1 (by decide)⟩⟩

/-- C4 counterexample: the post-bootstrap smoke test reports success and the
step records success (checkpoint advanced to 9) for an invocation whose
exit status is 124 (timeout), merely because its output text lacks an
`error`/`Error` substring — the exit status is discarded by `|| true`. -/
theorem smoke_test_success_despite_nonzero_exit :
    (step9Run 8 124 "Hello there friend").reportedSuccess = true ∧
    (step9Run 8 124 "Hello there friend").checkpointAfter = 9 ∧
    (124 : Nat) ≠ 0 := by
  decide

/-- C4 (amended): the `install.ps1` download check derives its
classification from the exit code and the `DOWNLOAD_OK` output marker,
and treats any unmatched output as failure; the remote smoke test,
however, ignores the process exit status entirely (its verdict is a
function of the output text alone) and records the step regardless of the
verdict. -/
theorem outcome_classification_mixed :
    (∀ (ec : Int) (out : String), ec ≠ 0 → ps1DownloadCheckFails ec out = true) ∧
    (∀ (ec : Int) (out : String), bashGlobContains out "DOWNLOAD_OK" = false →
      ps1DownloadCheckFails ec out = true) ∧
    (∀ (cp e1 e2 : Nat) (out : String), step9Run cp e1 out = step9Run cp e2 out) ∧
    (∀ (e : Nat) (out : String), (step9Run 8 e out).checkpointAfter = 9) := by
  refine ⟨fun ec out h => ?_, fun ec out h => ?_,
    fun cp e1 e2 out => rfl, fun e out => rfl⟩
  · have hb : (ec != 0) = true := by simpa using h
    simp [ps1DownloadCheckFails, hb]
  · simp [ps1DownloadCheckFails, h]

theorem outcome_classification_mixed_witness :
    ((1 : Int) ≠ 0 ∧ ps1DownloadCheckFails 1 "DOWNLOAD_OK" = true) ∧
    (bashGlobContains "curl: timed out" "DOWNLOAD_OK" = false ∧
      ps1DownloadCheckFails 0 "curl: timed out" = true) :=
  ⟨⟨by decide, outcome_classification_mixed.1 1 "DOWNLOAD_OK" (by decide)⟩,
   ⟨by decide, outcome_classification_mixed.2.1 0 "curl: timed out" (by decide)⟩⟩

/-- C7 counterexample: with OpenClaw already installed (idempotency check
satisfied), answering `y` to the reinstall prompt invokes the installer,
so the step body's side-effecting call count is 1, not 0. -/
theorem openclaw_reinstall_prompt_invokes_installer :
    step7OpenclawCalls true "y" = ["openclaw-install"] ∧
    step7OpenclawCalls true "y" ≠ [] := by
  decide

/-- C7 (amended): when a step's pre-action idempotency check reports the
desired end state already holds, the step performs no side-effecting
installer calls and still advances — with the single exception of the
OpenClaw step, which offers an optional reinstall prompt (default no) and
invokes the installer only on an explicit yes. -/
theorem idempotency_check_short_circuits :
    (∀ ver : String, bashGlobPrefix ver "v22" = true → step4NodeCalls true ver = []) ∧
    step5InstallCalls true = [] ∧
    (∀ (k mem : Nat) (reply : String), step3SwapCalls (k + 1) mem reply = []) ∧
    step8OnboardCalls true = [] ∧
    (∀ reply : String, matchesYes reply = false →
      step7OpenclawCalls true reply = []) ∧
    (∀ (ti tc : Bool) (key : String),
      (step5Run 4 ti tc key).checkpointAfter = 5) := by
  refine ⟨fun ver h => ?_, rfl, fun k mem reply => rfl, rfl,
    fun reply h => ?_, fun ti tc key => rfl⟩
  · simp [step4NodeCalls, h]
  · simp [step7OpenclawCalls, h]

theorem idempotency_check_short_circuits_witness :
    (bashGlobPrefix "v22.11.0" "v22" = true ∧ step4NodeCalls true "v22.11.0" = []) ∧
    (matchesYes "" = false ∧ step7OpenclawCalls true "" = []) :=
  ⟨⟨by decide, idempotency_check_short_circuits.1 "v22.11.0" (by decide)⟩,
   ⟨by decide, idempotency_check_short_circuits.2.2.2.2.1 "" (by decide)⟩⟩

/-- C8 counterexample: an empty response to the Tailscale auth-key prompt
(the operator skipping a step that is known incomplete) still advances the
checkpoint to 5 exactly as on success, and no skipped marker is persisted
— the checkpoint file holds only the bare step number. -/
theorem empty_secret_skip_advances_checkpoint :
    (step5Run 4 true false "").checkpointAfter = 5 ∧
    (step5Run 4 true false "").skipRecorded = false ∧
    (step5Run 4 true false "").sessionAborted = false ∧
    (step5Run 4 true false "").calls = [] := by
  decide

/-- C8 (amended): an empty secret response is a non-fatal first-class skip
— the session does not abort and no `tailscale up` call is made — but the
checkpoint is advanced past the step exactly as on success and no skipped
state is recorded; the later Gmail flow degrades gracefully by re-probing
the live `tailscale status` (and honoring a `skip` reply) instead of
consulting any persisted skip marker. -/
theorem skip_nonfatal_but_checkpoint_advances :
    (∀ (cp : Nat) (ti tc : Bool),
      (step5Run cp ti tc "").sessionAborted = false ∧
      (step5Run cp ti tc "").skipRecorded = false) ∧
    (∀ tc : Bool, step5ConnectCalls tc "" = []) ∧
    (∀ ti tc : Bool, (step5Run 4 ti tc "").checkpointAfter = 5 ∧
      (step5Run 4 ti tc "").calls = step5InstallCalls ti) ∧
    (∀ authOk : Bool, step10GmailRun false "skip" authOk = []) := by
  refine ⟨fun cp ti tc => ?_, fun tc => ?_,
    fun ti tc => ⟨rfl, ?_⟩, fun authOk => rfl⟩
  · by_cases h : cp < 5 <;> simp [step5Run, h]
  · cases tc <;> rfl
  · show step5InstallCalls ti ++ step5ConnectCalls tc "" = step5InstallCalls ti
    cases tc <;> simp [step5ConnectCalls]

/-- C9 counterexample: a run interrupted after `doctl compute droplet
create` returns but before the immediately following
`Save-Checkpoint -Step 1` has a created droplet (creation count 1) that
the persisted checkpoint does not reference, so the next invocation's
step 2 entry test does not offer reuse for this interruption point. -/
theorem creation_window_before_save_loses_reference :
    (ps1CreateRunPrefix "203.0.113.7" "12345678" "openclaw-20240101" 1).dropletsCreated = 1 ∧
    ps1OffersReuse
      (ps1CreateRunPrefix "203.0.113.7" "12345678" "openclaw-20240101" 1).checkpoint = false := by
  decide

/-- C9 (amended): the droplet identity is persisted by the save action
immediately following creation and before the SSH readiness wait; for
every interruption point from that save onward (and before the step 2
checkpoint advance), exactly one droplet exists, the checkpoint references
its IP and id with step still 1, so the next invocation re-enters step 2
and shows the reuse prompt; answering yes performs zero further `doctl
compute droplet create` calls.  Only the one-action window between the
create call returning and its save loses the reference. -/
theorem droplet_reference_persisted_before_ssh_wait :
    (∀ (ip did dname : String) (k : Nat),
      ip ≠ "" → did ≠ "" → 2 ≤ k → k ≤ 3 →
      (ps1CreateRunPrefix ip did dname k).dropletsCreated = 1 ∧
      (ps1CreateRunPrefix ip did dname k).checkpoint =
        some ⟨1, ip, "root", did, dname⟩ ∧
      ps1OffersReuse (ps1CreateRunPrefix ip did dname k).checkpoint = true) ∧
    (∀ reply : String, matchesYes reply = true →
      ps1Step2CreationsAfterReusePrompt reply true = 0 ∧
      ps1Step2CreationsAfterReusePrompt reply false = 0) := by
  constructor
  · intro ip did dname k hip hdid hk2 hk3
    have hip' : (ip != "") = true := by simpa using hip
    have hdid' : (did != "") = true := by simpa using hdid
    interval_cases k <;>
      exact ⟨rfl, rfl, by simp [ps1OffersReuse, ps1CreateRunPrefix,
        ps1CreateTrace, ps1ApplyAction, hip', hdid']⟩
  · intro reply h
    exact ⟨by simp [ps1Step2CreationsAfterReusePrompt, h], by
      simp [ps1Step2CreationsAfterReusePrompt, h]⟩

theorem droplet_reference_persisted_before_ssh_wait_witness :
    (("203.0.113.7" : String) ≠ "" ∧ ("12345678" : String) ≠ "" ∧
      2 ≤ 2 ∧ 2 ≤ 3 ∧
      (ps1CreateRunPrefix "203.0.113.7" "12345678" "oc" 2).dropletsCreated = 1 ∧
      ps1OffersReuse
        (ps1CreateRunPrefix "203.0.113.7" "12345678" "oc" 2).checkpoint = true) ∧
    (matchesYes "y" = true ∧ ps1Step2CreationsAfterReusePrompt "y" true = 0) :=
  ⟨⟨by decide, by decide, by decide, by decide,
    (droplet_reference_persisted_before_ssh_wait.1 "203.0.113.7" "12345678" "oc" 2
       (by decide) (by decide) (by decide) (by decide)).1,
    (droplet_reference_persisted_before_ssh_wait.1 "203.0.113.7" "12345678" "oc" 2
       (by decide) (by decide) (by decide) (by decide)).2.2⟩,
   ⟨by decide,
    (droplet_reference_persisted_before_ssh_wait.2 "y" (by decide)).1⟩⟩

/-- Helper: `takeWhile` passes over a leading block of accepted characters. -/
theorem takeWhile_append_all (p : Char → Bool) :
    ∀ (l₁ l₂ : List Char), (∀ c ∈ l₁, p c = true) →
      List.takeWhile p (l₁ ++ l₂) = l₁ ++ List.takeWhile p l₂ := by
  intro l₁
  induction l₁ with
  | nil => intro l₂ _; simp
  | cons a as ih =>
    intro l₂ h
    have ha : p a = true := h a (List.mem_cons_self a as)
    simp [List.takeWhile_cons, ha, ih l₂ fun c hc => h c (List.mem_cons_of_mem a hc)]

/-- Helper: `dropWhile` skips a leading block of accepted characters. -/
theorem dropWhile_append_all (p : Char → Bool) :
    ∀ (l₁ l₂ : List Char), (∀ c ∈ l₁, p c = true) →
      List.dropWhile p (l₁ ++ l₂) = List.dropWhile p l₂ := by
  intro l₁
  induction l₁ with
  | nil => intro l₂ _; simp
  | cons a as ih =>
    intro l₂ h
    have ha : p a = true := h a (List.mem_cons_self a as)
    simp [List.dropWhile_cons, ha, ih l₂ fun c hc => h c (List.mem_cons_of_mem a hc)]

/-- Helper: a line whose characters decompose as `NAME=VALUE`, with an
identifier name and a safe value, parses to exactly that assignment. -/
theorem parseAssign_line (l nm v : String)
    (hl : l.data = nm.data ++ '=' :: v.data)
    (hne : nm.data ≠ [])
    (hstart : isIdentStartChar (nm.data.headD 'a') = true)
    (hident : nm.data.all isIdentChar = true)
    (hv : v.data.all isSafeValueChar = true) :
    parseAssign l = some (nm, v) := by
  have hneq : ∀ c ∈ nm.data, (c != '=') = true := by
    intro c hc
    have hcid : isIdentChar c = true := List.all_eq_true.mp hident c hc
    rcases eq_or_ne c '=' with rfl | hcne
    · exact absurd hcid (by decide)
    · simpa using hcne
  have hdrop : List.dropWhile (fun c => c != '=') l.data = '=' :: v.data := by
    rw [hl, dropWhile_append_all _ _ _ hneq]
    simp [List.dropWhile_cons]
  have htake : List.takeWhile (fun c => c != '=') l.data = nm.data := by
    rw [hl, takeWhile_append_all _ _ _ hneq]
    simp [List.takeWhile_cons]
  have hnm : nm.data.asString = nm := String.asString_toList nm
  have hvv : v.data.asString = v := String.asString_toList v
  have hempty : nm.data.isEmpty = false := by
    cases hd : nm.data with
    | nil => exact absurd hd hne
    | cons a as => rfl
  unfold parseAssign
  rw [hdrop]
  simp only [htake, hempty, hstart, hident, hv, Bool.not_false, Bool.and_self,
    Bool.true_and, if_pos]
  rw [hnm, hvv]

/-- Helper: character-level decomposition of a checkpoint field line. -/
theorem fieldLine_data (nm v : String) :
    (nm ++ "=" ++ v).data = nm.data ++ '=' :: v.data := by
  rw [String.data_append, String.data_append]
  have h : ("=" : String).data = ['='] := rfl
  rw [h, List.append_assoc, List.singleton_append]

/-- Helper: a checkpoint field line is never the empty string. -/
theorem fieldLine_ne_empty (nm v : String) (hne : nm.data ≠ []) :
    ((nm ++ "=" ++ v) == "") = false := by
  refine beq_eq_false_iff_ne.mpr fun h => ?_
  have hd := congrArg String.data h
  rw [fieldLine_data] at hd
  cases he : nm.data with
  | nil => exact hne he
  | cons a as => rw [he] at hd; simp at hd

/-- Helper: sourcing a full well-formed checkpoint record yields the four
field assignments. -/
theorem sourceLines_fullRecord (step ip user ts : String)
    (hs : step.data.all isSafeValueChar = true)
    (hip : ip.data.all isSafeValueChar = true)
    (hu : user.data.all isSafeValueChar = true)
    (ht : ts.data.all isSafeValueChar = true) :
    sourceLines (localFullRecord step ip user ts) =
      some [("STEP", step), ("DROPLET_IP", ip), ("SSH_USER", user),
        ("TIMESTAMP", ts)] := by
  have e1 : ("STEP=" ++ step) = "STEP" ++ "=" ++ step :=
    congrArg (fun x => x ++ step) (by decide)
  have e2 : ("DROPLET_IP=" ++ ip) = "DROPLET_IP" ++ "=" ++ ip :=
    congrArg (fun x => x ++ ip) (by decide)
  have e3 : ("SSH_USER=" ++ user) = "SSH_USER" ++ "=" ++ user :=
    congrArg (fun x => x ++ user) (by decide)
  have e4 : ("TIMESTAMP=" ++ ts) = "TIMESTAMP" ++ "=" ++ ts :=
    congrArg (fun x => x ++ ts) (by decide)
  have p1 : parseAssign ("STEP=" ++ step) = some ("STEP", step) := by
    rw [e1]
    exact parseAssign_line _ _ _ (fieldLine_data _ _) (by decide) (by decide)
      (by decide) hs
  have p2 : parseAssign ("DROPLET_IP=" ++ ip) = some ("DROPLET_IP", ip) := by
    rw [e2]
    exact parseAssign_line _ _ _ (fieldLine_data _ _) (by decide) (by decide)
      (by decide) hip
  have p3 : parseAssign ("SSH_USER=" ++ user) = some ("SSH_USER", user) := by
    rw [e3]
    exact parseAssign_line _ _ _ (fieldLine_data _ _) (by decide) (by decide)
      (by decide) hu
  have p4 : parseAssign ("TIMESTAMP=" ++ ts) = some ("TIMESTAMP", ts) := by
    rw [e4]
    exact parseAssign_line _ _ _ (fieldLine_data _ _) (by decide) (by decide)
      (by decide) ht
  have n1 : (("STEP=" ++ step) == "") = false := by
    rw [e1]; exact fieldLine_ne_empty _ _ (by decide)
  have n2 : (("DROPLET_IP=" ++ ip) == "") = false := by
    rw [e2]; exact fieldLine_ne_empty _ _ (by decide)
  have n3 : (("SSH_USER=" ++ user) == "") = false := by
    rw [e3]; exact fieldLine_ne_empty _ _ (by decide)
  have n4 : (("TIMESTAMP=" ++ ts) == "") = false := by
    rw [e4]; exact fieldLine_ne_empty _ _ (by decide)
  simp [localFullRecord, sourceLines, n1, n2, n3, n4, p1, p2, p3, p4]

/-- Helper: loading a full well-formed checkpoint record fails soft and
returns the recorded step (or "0" when the STEP field is empty). -/
theorem loadLocalCheckpoint_fullRecord (step ip user ts : String)
    (hs : step.data.all isSafeValueChar = true)
    (hip : ip.data.all isSafeValueChar = true)
    (hu : user.data.all isSafeValueChar = true)
    (ht : ts.data.all isSafeValueChar = true) :
    loadLocalCheckpoint (some (localFullRecord step ip user ts)) =
      .ok (if step == "" then "0" else step) := by
  have f1 : (("STEP" : String) == "STEP") = true := by decide
  have f2 : (("DROPLET_IP" : String) == "STEP") = false := by decide
  have f3 : (("SSH_USER" : String) == "STEP") = false := by decide
  have f4 : (("TIMESTAMP" : String) == "STEP") = false := by decide
  simp [loadLocalCheckpoint, sourceLines_fullRecord step ip user ts hs hip hu ht,
    List.filter, f1, f2, f3, f4, List.getLast?]

/-- Helper: facts about a written STEP line. -/
theorem stepLine_facts (v : String) (hv : v.data.all isSafeValueChar = true) :
    parseAssign ("STEP=" ++ v) = some ("STEP", v) ∧
      (("STEP=" ++ v) == "") = false := by
  have e : ("STEP=" ++ v) = "STEP" ++ "=" ++ v :=
    congrArg (fun x => x ++ v) (by decide)
  rw [e]
  exact ⟨parseAssign_line _ _ _ (fieldLine_data _ _) (by decide) (by decide)
      (by decide) hv,
    fieldLine_ne_empty _ _ (by decide)⟩

/-- Helper: facts about a written DROPLET_IP line. -/
theorem ipLine_facts (v : String) (hv : v.data.all isSafeValueChar = true) :
    parseAssign ("DROPLET_IP=" ++ v) = some ("DROPLET_IP", v) ∧
      (("DROPLET_IP=" ++ v) == "") = false := by
  have e : ("DROPLET_IP=" ++ v) = "DROPLET_IP" ++ "=" ++ v :=
    congrArg (fun x => x ++ v) (by decide)
  rw [e]
  exact ⟨parseAssign_line _ _ _ (fieldLine_data _ _) (by decide) (by decide)
      (by decide) hv,
    fieldLine_ne_empty _ _ (by decide)⟩

/-- Helper: facts about a written SSH_USER line. -/
theorem userLine_facts (v : String) (hv : v.data.all isSafeValueChar = true) :
    parseAssign ("SSH_USER=" ++ v) = some ("SSH_USER", v) ∧
      (("SSH_USER=" ++ v) == "") = false := by
  have e : ("SSH_USER=" ++ v) = "SSH_USER" ++ "=" ++ v :=
    congrArg (fun x => x ++ v) (by decide)
  rw [e]
  exact ⟨parseAssign_line _ _ _ (fieldLine_data _ _) (by decide) (by decide)
      (by decide) hv,
    fieldLine_ne_empty _ _ (by decide)⟩

/-- C3 counterexample: interrupting the local `save_checkpoint` after its
first atomic write (the truncating STEP-line `echo`) leaves a one-line
file that is neither the complete previous record nor the complete new
record — there is no temp-file-and-rename step to prevent this. -/
theorem save_interrupted_leaves_partial_record :
    (localSaveStates
        (localFullRecord "1" "" "root" "2024-01-01T00:00:00+00:00")
        "2" "203.0.113.7" "root" "2024-01-01T00:05:00+00:00").getD 1 [] =
      ["STEP=2"] ∧
    ["STEP=2"] ≠ localFullRecord "1" "" "root" "2024-01-01T00:00:00+00:00" ∧
    ["STEP=2"] ≠
      localFullRecord "2" "203.0.113.7" "root" "2024-01-01T00:05:00+00:00" ∧
    isCompleteLocalRecord ["STEP=2"] = false := by
  decide

/-- C3 (amended): the checkpoint save is a direct in-place overwrite (a
truncating write of the STEP line followed by three appends), not
write-temp-then-rename, so an interruption mid-save can leave a partial
record; every mid-save state is, however, a line-prefix of the new record
— the new step index is written first — and the loader parses each such
partial state without failing. -/
theorem save_states_are_prefixes_of_new_record (prev : List String)
    (step ip user ts : String)
    (hs : step.data.all isSafeValueChar = true)
    (hip : ip.data.all isSafeValueChar = true)
    (hu : user.data.all isSafeValueChar = true)
    (ht : ts.data.all isSafeValueChar = true) :
    (localSaveStates prev step ip user ts).getD 0 [] = prev ∧
    (∀ k, 1 ≤ k → k ≤ 4 →
      (localSaveStates prev step ip user ts).getD k [] =
        (localFullRecord step ip user ts).take k ∧
      (loadLocalCheckpoint
          (some ((localFullRecord step ip user ts).take k))).isOk = true) := by
  refine ⟨rfl, ?_⟩
  intro k h1 h4
  interval_cases k
  · exact ⟨rfl, by
      simp [localFullRecord, loadLocalCheckpoint, sourceLines,
        (stepLine_facts step hs).1, (stepLine_facts step hs).2, Except.isOk,
        Except.toBool]⟩
  · exact ⟨rfl, by
      simp [localFullRecord, loadLocalCheckpoint, sourceLines,
        (stepLine_facts step hs).1, (stepLine_facts step hs).2,
        (ipLine_facts ip hip).1, (ipLine_facts ip hip).2, Except.isOk,
        Except.toBool]⟩
  · exact ⟨rfl, by
      simp [localFullRecord, loadLocalCheckpoint, sourceLines,
        (stepLine_facts step hs).1, (stepLine_facts step hs).2,
        (ipLine_facts ip hip).1, (ipLine_facts ip hip).2,
        (userLine_facts user hu).1, (userLine_facts user hu).2, Except.isOk,
        Except.toBool]⟩
  · refine ⟨rfl, ?_⟩
    have htake : (localFullRecord step ip user ts).take 4 =
        localFullRecord step ip user ts := rfl
    rw [htake, loadLocalCheckpoint_fullRecord step ip user ts hs hip hu ht]
    simp [Except.isOk, Except.toBool]

theorem save_states_are_prefixes_of_new_record_witness :
    (("3" : String).data.all isSafeValueChar = true ∧
      ("203.0.113.7" : String).data.all isSafeValueChar = true ∧
      ("root" : String).data.all isSafeValueChar = true ∧
      ("2024-01-01T00:00:00+00:00" : String).data.all isSafeValueChar = true) ∧
    (1 ≤ 1 ∧ 1 ≤ 4 ∧
      (localSaveStates ["STEP=2"] "3" "203.0.113.7" "root"
          "2024-01-01T00:00:00+00:00").getD 1 [] =
        (localFullRecord "3" "203.0.113.7" "root"
          "2024-01-01T00:00:00+00:00").take 1) :=
  ⟨⟨by decide, by decide, by decide, by decide⟩,
   ⟨by decide, by decide,
    ((save_states_are_prefixes_of_new_record ["STEP=2"] "3" "203.0.113.7" "root"
        "2024-01-01T00:00:00+00:00" (by decide) (by decide) (by decide)
        (by decide)).2 1 (by decide) (by decide)).1⟩⟩

/-- C6 counterexample: the local bash installer loads the checkpoint by
sourcing it, so a checkpoint file containing the single corrupt line `(`
aborts the load fatally (under `set -euo pipefail` the run dies) instead
of returning the empty session; and in the remote script a checkpoint
whose content is `1 2` makes every guard's arithmetic comparison error
out, so *no* step executes — a start-over run would execute all ten. -/
theorem corrupt_checkpoint_not_empty_session :
    loadLocalCheckpoint (some ["("]) = Except.error () ∧
    bashArith "1 2" = none ∧
    runFixedRaw "1 2" dropletSteps = [] ∧
    runFixedRaw "0" dropletSteps = dropletSteps := by
  exact ⟨rfl, by decide, by decide, by decide⟩

/-- C6 (amended): checkpoint load fails soft for an absent file, an empty
file, a truncated assignment and any full well-formed record (the bash
loader), and the PowerShell loader degrades every parse failure to the
empty session (step 0); but the bash loaders do not handle arbitrary
corruption — content that is not a plain variable assignment aborts the
local installer fatally. -/
theorem load_fails_soft_on_expected_shapes :
    loadLocalCheckpoint none = Except.ok "0" ∧
    loadLocalCheckpoint (some []) = Except.ok "0" ∧
    loadLocalCheckpoint (some [""]) = Except.ok "0" ∧
    loadLocalCheckpoint (some ["STEP="]) = Except.ok "0" ∧
    (∀ step ip user ts : String,
      step.data.all isSafeValueChar = true →
      ip.data.all isSafeValueChar = true →
      user.data.all isSafeValueChar = true →
      ts.data.all isSafeValueChar = true →
      loadLocalCheckpoint (some (localFullRecord step ip user ts)) =
        Except.ok (if step == "" then "0" else step)) ∧
    loadDropletCheckpoint none = "0" ∧
    (∀ parse : String → Option Ps1Checkpoint,
      ps1CurrentStep (ps1LoadCheckpoint parse none) = 0) ∧
    (∀ (parse : String → Option Ps1Checkpoint) (s : String),
      parse s = none →
      ps1CurrentStep (ps1LoadCheckpoint parse (some s)) = 0) := by
  refine ⟨rfl, rfl, rfl, rfl,
    fun step ip user ts hs hip hu ht =>
      loadLocalCheckpoint_fullRecord step ip user ts hs hip hu ht,
    rfl, fun parse => rfl, fun parse s h => ?_⟩
  simp [ps1LoadCheckpoint, ps1CurrentStep, h]

theorem load_fails_soft_on_expected_shapes_witness :
    (("3" : String).data.all isSafeValueChar = true ∧
      ("203.0.113.7" : String).data.all isSafeValueChar = true ∧
      ("root" : String).data.all isSafeValueChar = true ∧
      ("2024-01-01T00:00:00+00:00" : String).data.all isSafeValueChar = true ∧
      loadLocalCheckpoint
          (some (localFullRecord "3" "203.0.113.7" "root"
            "2024-01-01T00:00:00+00:00")) =
        Except.ok (if ("3" : String) == "" then "0" else "3")) ∧
    ((fun _ : String => (none : Option Ps1Checkpoint)) "x" = none ∧
      ps1CurrentStep
        (ps1LoadCheckpoint (fun _ => none) (some "x")) = 0) :=
  ⟨⟨by decide, by decide, by decide, by decide,
    load_fails_soft_on_expected_shapes.2.2.2.2.1 "3" "203.0.113.7" "root"
      "2024-01-01T00:00:00+00:00" (by decide) (by decide) (by decide)
      (by decide)⟩,
   ⟨rfl,
    load_fails_soft_on_expected_shapes.2.2.2.2.2.2.2 (fun _ => none) "x" rfl⟩⟩
